import Mathlib

/-!
Verification development for the server-monitoring repository.

The repository holds the React dashboard (frontend/src/App.js, in two
revisions), deployment files and a README.  The backend collector
(`main.py`: SSH command runner, parsers, aggregator, refresh cache) is not
part of the sources available here, so those components are modelled from
the specification where needed; every such definition is marked
"Modelled from the spec:".  All frontend definitions are translated
directly from frontend/src/App.js.
-/

/-! ## JavaScript numeric semantics

App.js computes the GPU memory bar as `(gpu.memory_used / gpu.memory_total) * 100`
(App.js line 505).  JavaScript division by zero does not fault: it yields
`Infinity`, `-Infinity` or `NaN`.  `JsNum` models an IEEE-style result of
such an expression over exact rationals. -/

inductive JsNum where
  | nan : JsNum
  | posInf : JsNum
  | negInf : JsNum
  | num : ℚ → JsNum
deriving DecidableEq, Repr

/-- JavaScript division `a / b` on (exact) numbers: `0/0` is `NaN`,
`a/0` for `a ≠ 0` is a signed infinity, otherwise the rational quotient. -/
def jsDiv (a b : ℚ) : JsNum :=
  if b = 0 then
    if a = 0 then JsNum.nan
    else if a > 0 then JsNum.posInf
    else JsNum.negInf
  else JsNum.num (a / b)

/-- JavaScript multiplication of a possibly non-finite value by a constant. -/
def jsScale (x : JsNum) (c : ℚ) : JsNum :=
  match x with
  | JsNum.nan => JsNum.nan
  | JsNum.posInf => if c > 0 then JsNum.posInf else if c < 0 then JsNum.negInf else JsNum.nan
  | JsNum.negInf => if c > 0 then JsNum.negInf else if c < 0 then JsNum.posInf else JsNum.nan
  | JsNum.num q => JsNum.num (q * c)

/-- The GPU memory-usage percentage exactly as App.js line 505 computes it:
`(gpu.memory_used / gpu.memory_total) * 100`, with no guard on the divisor. -/
def gpuMemoryUsagePercent (memUsed memTotal : ℚ) : JsNum :=
  jsScale (jsDiv memUsed memTotal) 100

/-- Modelled from the spec: the backend collector (`main.py`) is not among
the sources; per spec section 4.2, its memory/disk parsers derive
`usage_percent` as `used / total * 100` with `total` defended against being
zero (emit 0, not a divide-by-zero fault). -/
def derivedUsagePercent (used total : ℚ) : ℚ :=
  if total = 0 then 0 else used / total * 100

/-! ## Frontend data model (shapes consumed by App.js) -/

/-- One GPU record as rendered by App.js (fields read at lines 490-556).
The record carries no `usage_percent` field: the tool output does not emit
one, and the bar value is always derived from the two memory fields. -/
structure GpuRecord where
  id : ℕ
  name : String
  memory_used : ℚ
  memory_total : ℚ
  temperature : ℚ
  power_usage : ℚ
  user : Option String
deriving DecidableEq, Repr

/-- The usage value App.js feeds the GPU memory bar for a record
(App.js line 505): it reads only `memory_used` and `memory_total`. -/
def gpuUsageOfRecord (g : GpuRecord) : JsNum :=
  gpuMemoryUsagePercent g.memory_used g.memory_total

/-! ## Claims C1 and C2: derivation of usage percentages -/

/-- C1 (counterexample): the claim says no non-numeric value (NaN/Infinity)
is ever produced and that `total = 0` yields 0, in particular for the GPU
memory percentage.  But App.js line 505 divides with no zero guard: at
`memory_used = 1024`, `memory_total = 0` the rendered value is `Infinity`,
not the number 0. -/
theorem C1_gpu_percent_unguarded_counterexample :
    gpuMemoryUsagePercent 1024 0 = JsNum.posInf ∧
      JsNum.posInf ≠ JsNum.num 0 := by
  constructor
  · rfl
  · decide

/-- C1 (amended): the backend-derived memory/disk percentages (modelled
from the spec, the backend not being among the sources) are computed as
`used / total * 100` with `total = 0` defended to 0 — in particular
8192/16384 gives 50 — but the GPU memory percentage computed by App.js
line 505 is unguarded and produces `Infinity` when `memory_total = 0`. -/
theorem C1_usage_percent_defended_except_gpu :
    derivedUsagePercent 8192 16384 = 50 ∧
      (∀ used : ℚ, derivedUsagePercent used 0 = 0) ∧
      (∀ used total : ℚ, total ≠ 0 →
        derivedUsagePercent used total = used / total * 100) ∧
      gpuMemoryUsagePercent 1024 0 = JsNum.posInf := by
  refine ⟨by norm_num [derivedUsagePercent], fun used => by simp [derivedUsagePercent],
    fun used total ht => by simp [derivedUsagePercent, ht], rfl⟩

/-- C1 (witness): the amended theorem applied at `used = 30`, `total = 40`. -/
theorem C1_usage_percent_defended_witness :
    derivedUsagePercent 30 40 = 30 / 40 * 100 :=
  (C1_usage_percent_defended_except_gpu.2.2.1) 30 40 (by norm_num)

/-- C2: the GPU usage percentage is always derived from `memory_used` and
`memory_total` alone (App.js line 505 reads only those two fields, and
`GpuRecord` carries no verbatim `usage_percent`): two records agreeing on
the memory fields get the same bar value whatever their other fields; and
at `memory_used = 1024`, `memory_total = 16384` the derived usage is
6.25%. -/
theorem C2_gpu_usage_derived :
    (∀ g1 g2 : GpuRecord, g1.memory_used = g2.memory_used →
      g1.memory_total = g2.memory_total →
      gpuUsageOfRecord g1 = gpuUsageOfRecord g2) ∧
      gpuMemoryUsagePercent 1024 16384 = JsNum.num (625 / 100) := by
  constructor
  · intro g1 g2 hu ht
    simp [gpuUsageOfRecord, hu, ht]
  · norm_num [gpuMemoryUsagePercent, jsDiv, jsScale]

/-- C2 (witness): the theorem applied to two concrete records sharing the
memory fields but differing elsewhere. -/
theorem C2_gpu_usage_derived_witness :
    gpuUsageOfRecord ⟨0, "Tesla T4", 1024, 16384, 42, 70, some "alice"⟩ =
      gpuUsageOfRecord ⟨1, "A100", 1024, 16384, 60, 250, none⟩ ∧
      gpuMemoryUsagePercent 1024 16384 = JsNum.num (625 / 100) :=
  ⟨C2_gpu_usage_derived.1 ⟨0, "Tesla T4", 1024, 16384, 42, 70, some "alice"⟩
      ⟨1, "A100", 1024, 16384, 60, 250, none⟩ rfl rfl,
    C2_gpu_usage_derived.2⟩

/-! ## JavaScript defaulting helpers used in App.js JSX

App.js never uses `??`; it uses `||` and `?.`, so a *present but falsy*
value (the number 0, the empty string) also falls back to the default. -/

/-- `x || d` for an optional number with a numeric default: absent or zero
falls back to `d`. -/
def jsOrNum (v : Option ℚ) (d : ℚ) : ℚ :=
  match v with
  | some q => if q = 0 then d else q
  | none => d

/-- `x || d` for an optional count rendered as text (`cores || 'N/A'`,
App.js line 246): absent or zero renders the default text. -/
def jsOrNatStr (v : Option ℕ) (d : String) : String :=
  match v with
  | some n => if n = 0 then d else toString n
  | none => d

/-- `x || d` for an optional string (`disk?.used || 'N/A'`, App.js
line 338): absent or empty renders the default text. -/
def jsOrStrStr (v : Option String) (d : String) : String :=
  match v with
  | some s => if s = "" then d else s
  | none => d

/-- `q.toFixed(1)`: decimal string with one fractional digit (rounding to
nearest tenth). -/
def fixed1Str (q : ℚ) : String :=
  let n : ℤ := round (q * 10)
  (if n < 0 then "-" else "") ++ toString (n.natAbs / 10) ++ "." ++ toString (n.natAbs % 10)

/-- `q.toFixed(0)`: decimal string with no fractional digits. -/
def fixed0Str (q : ℚ) : String :=
  let n : ℤ := round q
  (if n < 0 then "-" else "") ++ toString n.natAbs

/-! ## Frontend system-resources shape (all subfields independently optional) -/

/-- `system_resources.cpu` as App.js reads it (lines 219, 241, 246). -/
structure CpuInfo where
  usage_percent : Option ℚ
  cores : Option ℕ
deriving DecidableEq, Repr

/-- `system_resources.memory` as App.js reads it (lines 265, 287, 292). -/
structure MemInfo where
  usage_percent : Option ℚ
  used : Option ℚ
  total : Option ℚ
deriving DecidableEq, Repr

/-- `system_resources.disk` as App.js reads it (lines 311, 333, 338);
`used`/`total` are the human-readable strings from `df`. -/
structure DiskInfo where
  usage_percent : Option ℚ
  used : Option String
  total : Option String
deriving DecidableEq, Repr

/-- One row of `system_resources.storage_disks` (App.js lines 415-455). -/
structure StorageDisk where
  mount_point : String
  used : String
  total : String
  available : String
  usage_percent : ℚ
deriving DecidableEq, Repr

/-- `system_resources.storage_summary` (App.js lines 380-403). -/
structure StorageSummary where
  used : Option String
  total : Option String
  available : Option String
  usage_percent : Option ℚ
deriving DecidableEq, Repr

/-- The `system_resources` object; every subfield independently optional. -/
structure SystemResources where
  cpu : Option CpuInfo
  memory : Option MemInfo
  disk : Option DiskInfo
  storage_disks : Option (List StorageDisk)
  storage_summary : Option StorageSummary
deriving DecidableEq, Repr

/-- One login session of a user row (App.js line 671-674). -/
structure UserSession where
  terminal : String
  fromHost : String
deriving DecidableEq, Repr

/-- One row of `user_resources` (App.js lines 598-678). -/
structure UserResourceRecord where
  username : String
  cpu_usage : ℚ
  memory_usage : ℚ
  gpu_memory_usage : ℚ
  storage_usage : ℚ
  sessions : List UserSession
deriving DecidableEq, Repr

/-- The payload of `GET /api/gpu-status` as App.js stores it in `gpuData`.
`system_resources` is optional here because the response is stored
verbatim; App.js's initial state supplies `{}` but a response may omit
the key. -/
structure GpuData where
  gpus : List GpuRecord
  active_users : List String
  user_resources : List UserResourceRecord
  system_resources : Option SystemResources
deriving DecidableEq, Repr

/-! ## Rendered values -/

/-- The GPU-memory cell of the per-user table (App.js lines 654-658):
`gpu_memory_usage > 0 ? (gpu_memory_usage/1024).toFixed(1)+'G' : 'None'`.
The input is optional because the field is read unguarded: an absent value
compares `undefined > 0`, which is false in JavaScript. -/
def renderGpuMemCell (v : Option ℚ) : String :=
  match v with
  | some q => if q > 0 then fixed1Str (q / 1024) ++ "G" else "None"
  | none => "None"

/-- The storage cell of the per-user table (App.js lines 661-667):
zero or absent renders `'N/A'`; a positive value above 1 renders
`toFixed(1)+'G'`, otherwise `(value*1024).toFixed(0)+'MB'`. -/
def renderStorageCell (v : Option ℚ) : String :=
  match v with
  | some q =>
      if q > 0 then
        if q > 1 then fixed1Str q ++ "G" else fixed0Str (q * 1024) ++ "MB"
      else "N/A"
  | none => "N/A"

/-- The storage-summary card's displayed values (App.js lines 380-403). -/
structure StorageSummaryDisplay where
  usedOverTotal : String
  gauge : ℚ
  available : String
deriving DecidableEq, Repr

/-- Render the storage-summary card from the optional `storage_summary`
object (App.js lines 380, 385, 403). -/
def renderStorageSummary (so : Option StorageSummary) : StorageSummaryDisplay where
  usedOverTotal :=
    jsOrStrStr (so.bind StorageSummary.used) "0G" ++ " / " ++
      jsOrStrStr (so.bind StorageSummary.total) "0G"
  gauge := jsOrNum (so.bind StorageSummary.usage_percent) 0
  available := jsOrStrStr (so.bind StorageSummary.available) "0G"

/-- Every value the System Resources section displays (App.js
lines 216-247, 262-293, 308-339, 374-404). -/
structure SystemDisplay where
  cpuGauge : ℚ
  cpuPercentText : String
  coresDisplay : String
  memGauge : ℚ
  memPercentText : String
  memUsed : ℚ
  memTotal : ℚ
  diskGauge : ℚ
  diskUsed : String
  diskTotal : String
  storageSection : Option StorageSummaryDisplay
deriving DecidableEq, Repr

/-- Render the System Resources section from a present `system_resources`
object, mirroring each JSX expression of App.js. The storage section is
emitted only when `storage_disks` is present and non-empty (line 347). -/
def renderSystem (sr : SystemResources) : SystemDisplay where
  cpuGauge := jsOrNum (sr.cpu.bind CpuInfo.usage_percent) 0
  cpuPercentText :=
    (match sr.cpu.bind CpuInfo.usage_percent with
      | some q => fixed1Str q
      | none => "0") ++ "%"
  coresDisplay := jsOrNatStr (sr.cpu.bind CpuInfo.cores) "N/A"
  memGauge := jsOrNum (sr.memory.bind MemInfo.usage_percent) 0
  memPercentText :=
    (match sr.memory.bind MemInfo.usage_percent with
      | some q => fixed1Str q
      | none => "0") ++ "%"
  memUsed := jsOrNum (sr.memory.bind MemInfo.used) 0
  memTotal := jsOrNum (sr.memory.bind MemInfo.total) 0
  diskGauge := jsOrNum (sr.disk.bind DiskInfo.usage_percent) 0
  diskUsed := jsOrStrStr (sr.disk.bind DiskInfo.used) "N/A"
  diskTotal := jsOrStrStr (sr.disk.bind DiskInfo.total) "N/A"
  storageSection :=
    match sr.storage_disks with
    | some ds => if ds.length > 0 then some (renderStorageSummary sr.storage_summary) else none
    | none => none

/-! ## Dashboard and top-level render -/

/-- A rendering fault: a JavaScript TypeError raised while evaluating JSX
(e.g. reading a property of `undefined`). -/
inductive JsFault where
  | typeError : JsFault
deriving DecidableEq, Repr

/-- One rendered GPU card (App.js lines 480-563): the memory-bar value and
the user line `gpu.user || 'No user'`. -/
structure GpuCard where
  memBar : JsNum
  userDisplay : String
deriving DecidableEq, Repr

/-- Render one GPU card (App.js lines 505, 556). -/
def renderGpuCard (g : GpuRecord) : GpuCard where
  memBar := gpuUsageOfRecord g
  userDisplay := jsOrStrStr g.user "No user"

/-- One rendered row of the Active Users table (App.js lines 598-678). -/
structure UserRow where
  username : String
  cpuBar : ℚ
  memBar : ℚ
  gpuMemCell : String
  storageCell : String
deriving DecidableEq, Repr

/-- Render one user row: bars are `Math.min(usage, 100)` (lines 615, 636),
the GPU-memory and storage cells follow lines 654-667. -/
def renderUserRow (u : UserResourceRecord) : UserRow where
  username := u.username
  cpuBar := min u.cpu_usage 100
  memBar := min u.memory_usage 100
  gpuMemCell := renderGpuMemCell (some u.gpu_memory_usage)
  storageCell := renderStorageCell (some u.storage_usage)

/-- The whole dashboard body (System Resources section, GPU cards, user
table). -/
structure DashboardView where
  system : SystemDisplay
  gpuCards : List GpuCard
  userRows : List UserRow
deriving DecidableEq, Repr

/-- Render the dashboard from the fetched data.  The very first property
access is `system_resources.cpu` (App.js line 219) with no `?.` after
`system_resources` itself: if the response omitted `system_resources`,
that read is a TypeError and the render faults. -/
def renderDashboard (d : GpuData) : Except JsFault DashboardView :=
  match d.system_resources with
  | none => Except.error JsFault.typeError
  | some sr =>
      Except.ok
        { system := renderSystem sr
          gpuCards := d.gpus.map renderGpuCard
          userRows := d.user_resources.map renderUserRow }

/-- What the App component returns (App.js lines 135-158, 162-696):
a full-screen spinner while loading, a full-screen error view when the
error state is set, otherwise the dashboard. -/
inductive View where
  | loadingView : View
  | errorView : String → View
  | dashboard : DashboardView → View
deriving DecidableEq, Repr

/-- The React component state App.js keeps in hooks (lines 47-55). -/
structure AppState where
  gpuData : GpuData
  loading : Bool
  error : Option String
  lastUpdated : ℕ
deriving DecidableEq, Repr

/-- Top-level render (App.js lines 135, 146, 162): loading check first,
then the error check, then the dashboard. -/
def render (st : AppState) : Except JsFault View :=
  if st.loading then Except.ok View.loadingView
  else
    match st.error with
    | some m => Except.ok (View.errorView m)
    | none => (renderDashboard st.gpuData).map View.dashboard

/-- The default API base URL (App.js line 41). -/
def apiUrl : String := "http://localhost:8000"

/-- The message `fetchData` stores on a failed fetch (App.js line 118). -/
def fetchErrorMessage : String :=
  "Failed to connect to the server at " ++ apiUrl ++ "/api/gpu-status. " ++
    "Please ensure the server is running and the SSH connection is properly configured. " ++
    "Demo mode has been disabled."

/-- `fetchData` (App.js lines 109-122) as a state transformer over the
component state, given the outcome of the HTTP request and the current
time: on success it stores the response, the new timestamp and clears the
error; on failure it only sets the error message; either way the
`finally` block clears the loading flag. -/
def fetchData (now : ℕ) (st : AppState) (resp : Except String GpuData) : AppState :=
  match resp with
  | Except.ok d => { gpuData := d, loading := false, error := none, lastUpdated := now }
  | Except.error _ => { st with error := some fetchErrorMessage, loading := false }

/-- The polling interval passed to `setInterval` (App.js line 131),
in milliseconds. -/
def refreshIntervalMs : ℕ := 5000

/-! ## Claims C7, C8, C10 -/

/-- C7: the periodic driver's refresh interval constant is 5000
milliseconds, i.e. 5 seconds (App.js line 131). -/
theorem C7_refresh_interval_is_5s :
    refreshIntervalMs = 5000 ∧ refreshIntervalMs = 5 * 1000 := by
  constructor <;> rfl

/-- C8: on the error path `fetchData` leaves the stored snapshot and the
last-updated timestamp exactly as they were, mutating only the error
message and the loading flag. -/
theorem C8_fetch_error_frame (now : ℕ) (st : AppState) (e : String) :
    (fetchData now st (Except.error e)).gpuData = st.gpuData ∧
      (fetchData now st (Except.error e)).lastUpdated = st.lastUpdated ∧
      (fetchData now st (Except.error e)).error = some fetchErrorMessage ∧
      (fetchData now st (Except.error e)).loading = false := by
  refine ⟨rfl, rfl, rfl, rfl⟩

/-- C10: in the per-user table a zero measurement renders as absence —
`gpu_memory_usage = 0` renders `'None'` and `storage_usage = 0` renders
`'N/A'`, the same texts an absent (undefined) field renders, so zero and
missing are indistinguishable at the display boundary; a positive storage
value of at most 1 renders in MB as `value * 1024`, and a value above 1
renders in G. -/
theorem C10_zero_renders_as_absence :
    renderGpuMemCell (some 0) = "None" ∧ renderGpuMemCell none = "None" ∧
      renderStorageCell (some 0) = "N/A" ∧ renderStorageCell none = "N/A" ∧
      (∀ q : ℚ, 0 < q → q ≤ 1 →
        renderStorageCell (some q) = fixed0Str (q * 1024) ++ "MB") ∧
      (∀ q : ℚ, 1 < q → renderStorageCell (some q) = fixed1Str q ++ "G") := by
  refine ⟨rfl, rfl, rfl, rfl, ?_, ?_⟩
  · intro q h0 h1
    simp [renderStorageCell, h0, not_lt.mpr h1]
  · intro q h1
    simp [renderStorageCell, h1, lt_trans zero_lt_one h1]

/-- C10 (witness): the theorem applied at `storage_usage = 1/2` (renders
`512MB`) and `storage_usage = 2` (renders `2.0G`). -/
theorem C10_zero_renders_as_absence_witness :
    renderGpuMemCell (some 0) = "None" ∧
      renderStorageCell (some (1/2 : ℚ)) = fixed0Str ((1/2 : ℚ) * 1024) ++ "MB" ∧
      renderStorageCell (some (2 : ℚ)) = fixed1Str 2 ++ "G" :=
  ⟨C10_zero_renders_as_absence.1,
    C10_zero_renders_as_absence.2.2.2.2.1 (1/2) (by norm_num) (by norm_num),
    C10_zero_renders_as_absence.2.2.2.2.2 2 (by norm_num)⟩

/-! ## Claims C3 and C9: behavior of the presentation layer on failures -/

/-- A fully populated `system_resources` object, used as concrete data. -/
def sampleSystemResources : SystemResources where
  cpu := some ⟨some 37, some 8⟩
  memory := some ⟨some 50, some 8192, some 16384⟩
  disk := some ⟨some 40, some "50G", some "100G"⟩
  storage_disks := some [⟨"/data/disk1", "1G", "4G", "3G", 25⟩]
  storage_summary := some ⟨some "1G", some "4G", some "3G", some 25⟩

/-- A fully populated response payload, used as concrete data. -/
def sampleGpuData : GpuData where
  gpus := [⟨0, "Tesla T4", 1024, 16384, 42, 70, some "alice"⟩]
  active_users := ["alice"]
  user_resources := [⟨"alice", 10, 20, 2048, 2, [⟨"pts/0", "10.0.0.1"⟩]⟩]
  system_resources := some sampleSystemResources

/-- App state holding a previously fetched, fully populated snapshot. -/
def samplePopulatedState : AppState where
  gpuData := sampleGpuData
  loading := false
  error := none
  lastUpdated := 0

/-- C3 (counterexample): with a fully populated snapshot already in state,
one failed fetch sets the error state, and the next render replaces the
whole display with the failure view (App.js lines 146-158) even though
every metric of the previous snapshot is still present in state. -/
theorem C3_whole_display_replaced_counterexample :
    render (fetchData 7 samplePopulatedState (Except.error "ECONNREFUSED")) =
      Except.ok (View.errorView fetchErrorMessage) ∧
      (fetchData 7 samplePopulatedState (Except.error "ECONNREFUSED")).gpuData.gpus ≠ [] := by
  constructor
  · rfl
  · simp [fetchData, samplePopulatedState, sampleGpuData]

/-- C3 (amended): within one successfully fetched snapshot, a missing
metric renders only its own "N/A"/zero placeholder while the other metrics
still display (here: `cpu` absent renders cores "N/A" and a 0% gauge while
the present memory gauge shows its actual value), and the result is the
dashboard, not the failure view; but when a fetch itself fails, App.js
sets the error state and the whole display is replaced by the error
view. -/
theorem C3_per_metric_placeholders :
    (∀ (now : ℕ) (st : AppState) (d : GpuData) (sr : SystemResources) (m : MemInfo) (q : ℚ),
      d.system_resources = some sr → sr.cpu = none → sr.memory = some m →
      m.usage_percent = some q → q ≠ 0 →
      render (fetchData now st (Except.ok d)) =
        Except.ok (View.dashboard
          ⟨renderSystem sr, d.gpus.map renderGpuCard, d.user_resources.map renderUserRow⟩) ∧
        (renderSystem sr).coresDisplay = "N/A" ∧
        (renderSystem sr).cpuGauge = 0 ∧
        (renderSystem sr).memGauge = q) ∧
      render (fetchData 7 samplePopulatedState (Except.error "ECONNREFUSED")) =
        Except.ok (View.errorView fetchErrorMessage) := by
  constructor
  · intro now st d sr m q hsr hcpu hm hq hq0
    refine ⟨?_, ?_, ?_, ?_⟩
    · simp [render, fetchData, renderDashboard, hsr, Except.map]
    · simp [renderSystem, hcpu, jsOrNatStr]
    · simp [renderSystem, hcpu, jsOrNum]
    · simp [renderSystem, hm, hq, jsOrNum, hq0]
  · rfl

/-- A snapshot whose `system_resources` has `cpu` absent and the others
present, used as a concrete input for C3. -/
def cpuMissingGpuData : GpuData where
  gpus := []
  active_users := []
  user_resources := []
  system_resources := some
    { cpu := none
      memory := some ⟨some 50, some 8192, some 16384⟩
      disk := some ⟨some 40, some "50G", some "100G"⟩
      storage_disks := none
      storage_summary := none }

/-- C3 (witness): the amended theorem applied to a concrete snapshot with
`cpu` absent and memory at 50%. -/
theorem C3_per_metric_placeholders_witness :
    (∃ sr, cpuMissingGpuData.system_resources = some sr ∧
      render (fetchData 3 samplePopulatedState (Except.ok cpuMissingGpuData)) =
        Except.ok (View.dashboard ⟨renderSystem sr, [], []⟩) ∧
      (renderSystem sr).coresDisplay = "N/A" ∧
      (renderSystem sr).memGauge = 50) := by
  refine ⟨_, rfl, ?_⟩
  have h := C3_per_metric_placeholders.1 3 samplePopulatedState cpuMissingGpuData
    _ ⟨some 50, some 8192, some 16384⟩ 50 rfl rfl rfl rfl (by norm_num)
  exact ⟨h.1, h.2.1, h.2.2.2⟩

/-- A response payload that omits `system_resources` entirely. -/
def noSystemGpuData : GpuData where
  gpus := []
  active_users := []
  user_resources := []
  system_resources := none

/-- C9 (counterexample): when `system_resources` itself is absent, the
very first read `system_resources.cpu` (App.js line 219) carries no
optional guard on `system_resources`, so the render faults with a
TypeError instead of showing placeholders — the claimed totality fails
for the `system_resources`-absent case. -/
theorem C9_absent_system_resources_faults :
    render ⟨noSystemGpuData, false, none, 0⟩ = Except.error JsFault.typeError := by
  rfl

/-- C9 (amended): the renderer is total over snapshots whose
`system_resources` *object is present* with arbitrarily missing subfields:
with `cpu`, `memory`, `disk` and `storage_disks` all absent, every
displayed value is the guarded default (0, "0%", "N/A", hidden storage
section), and a storage-summary card rendered without a `storage_summary`
object shows the "0G" defaults; but an absent `system_resources` object
itself makes the render fault. -/
theorem C9_empty_object_renders_defaults :
    (∀ sr : SystemResources, sr.cpu = none → sr.memory = none → sr.disk = none →
      sr.storage_disks = none →
      renderSystem sr = ⟨0, "0%", "N/A", 0, "0%", 0, 0, 0, "N/A", "N/A", none⟩) ∧
      renderStorageSummary none = ⟨"0G / 0G", 0, "0G"⟩ ∧
      render ⟨noSystemGpuData, false, none, 0⟩ = Except.error JsFault.typeError := by
  refine ⟨?_, rfl, rfl⟩
  intro sr hc hm hd hsd
  simp only [renderSystem, hc, hm, hd, hsd, jsOrNum, jsOrNatStr, jsOrStrStr,
    Option.bind_none]
  rfl

/-- C9 (witness): the amended theorem applied to the entirely empty
`system_resources` object. -/
theorem C9_empty_object_renders_defaults_witness :
    renderSystem ⟨none, none, none, none, none⟩ =
      ⟨0, "0%", "N/A", 0, "0%", 0, 0, 0, "N/A", "N/A", none⟩ :=
  C9_empty_object_renders_defaults.1 ⟨none, none, none, none, none⟩ rfl rfl rfl rfl

/-! ## Backend collector, modelled from the spec

The collector (`main.py`) is not among the available sources; the
definitions below are modelled from spec sections 3, 4.3, 4.4, 7 and 8. -/

/-- Modelled from the spec: the error taxonomy of section 7 for the
collector, whose code is missing from the sources. -/
inductive MetricError where
  | connectionError : String → MetricError
  | parseError : String → MetricError
  | commandTimeout : String → MetricError
  | nonZeroExit : ℤ → MetricError
deriving DecidableEq, Repr

/-- Modelled from the spec: a per-metric failure descriptor recorded in a
Snapshot's failure list (spec sections 3 and 4.3). -/
structure MetricFailure where
  metric : String
  error : MetricError
deriving DecidableEq, Repr

/-- Modelled from the spec: the memory summary record of
`SystemResources` (spec section 3). -/
structure MemStats where
  used : ℚ
  total : ℚ
  usage_percent : ℚ
deriving DecidableEq, Repr

/-- Modelled from the spec: the disk summary record of `SystemResources`
(spec section 3). -/
structure DiskStats where
  used : ℚ
  total : ℚ
  usage_percent : ℚ
deriving DecidableEq, Repr

/-- Modelled from the spec: the `SystemResources` record with its fields
independently optional — a parse failure on one leaves siblings populated
(spec section 3). -/
structure SysStats where
  memory : Option MemStats
  disk : Option DiskStats
deriving DecidableEq, Repr

/-- Modelled from the spec: a Snapshot — GPU records, user records, system
resources, capture timestamp and per-metric failure descriptors (spec
section 3). -/
structure Snapshot where
  gpus : List GpuRecord
  user_resources : List UserResourceRecord
  system_resources : SysStats
  timestamp : ℕ
  failures : List MetricFailure
deriving DecidableEq, Repr

/-- Modelled from the spec: the per-metric outcomes one collection cycle
feeds the Aggregator — each command's parsed result or its error (spec
sections 4.1-4.3; the commands are mutually independent). -/
structure CollectInputs where
  gpu : Except MetricError (List GpuRecord)
  memory : Except MetricError MemStats
  disk : Except MetricError DiskStats
  users : Except MetricError (List UserResourceRecord)
deriving Repr

/-- Modelled from the spec: `Aggregator.collect` (spec section 4.3) —
each failed metric is recorded in the failure list and its fields left
absent (empty list for GPUs/users), and no failure aborts the remaining
metrics. -/
def collect (inp : CollectInputs) (ts : ℕ) : Snapshot where
  gpus := inp.gpu.toOption.getD []
  user_resources := inp.users.toOption.getD []
  system_resources := ⟨inp.memory.toOption, inp.disk.toOption⟩
  timestamp := ts
  failures :=
    (match inp.gpu with | Except.error e => [⟨"gpu", e⟩] | Except.ok _ => []) ++
    (match inp.memory with | Except.error e => [⟨"memory", e⟩] | Except.ok _ => []) ++
    (match inp.disk with | Except.error e => [⟨"disk", e⟩] | Except.ok _ => []) ++
    (match inp.users with | Except.error e => [⟨"users", e⟩] | Except.ok _ => [])

/-- C6: when the GPU command fails with any `ConnectionError`/`ParseError`
(or other metric error) while memory, disk and users succeed, the
Snapshot keeps the populated system resources and user records, has an
empty GPU list and exactly one failure descriptor naming the GPU metric:
the failure aborts nothing else. -/
theorem C6_partial_failure_isolated (inp : CollectInputs) (ts : ℕ)
    (e : MetricError) (m : MemStats) (d : DiskStats)
    (us : List UserResourceRecord)
    (hg : inp.gpu = Except.error e) (hm : inp.memory = Except.ok m)
    (hd : inp.disk = Except.ok d) (hu : inp.users = Except.ok us) :
    (collect inp ts).gpus = [] ∧
      (collect inp ts).system_resources.memory = some m ∧
      (collect inp ts).system_resources.disk = some d ∧
      (collect inp ts).user_resources = us ∧
      (collect inp ts).failures = [⟨"gpu", e⟩] := by
  refine ⟨?_, ?_, ?_, ?_, ?_⟩ <;>
    simp [collect, hg, hm, hd, hu, Except.toOption]

/-- C6 (witness): the theorem applied to a cycle where the GPU command
timed out but every other metric succeeded. -/
theorem C6_partial_failure_isolated_witness :
    (collect
        ⟨Except.error (MetricError.connectionError "gpu query failed"),
          Except.ok ⟨8192, 16384, 50⟩, Except.ok ⟨40, 100, 40⟩,
          Except.ok [⟨"alice", 10, 20, 2048, 2, []⟩]⟩ 11).gpus = [] ∧
      (collect
        ⟨Except.error (MetricError.connectionError "gpu query failed"),
          Except.ok ⟨8192, 16384, 50⟩, Except.ok ⟨40, 100, 40⟩,
          Except.ok [⟨"alice", 10, 20, 2048, 2, []⟩]⟩ 11).failures =
        [⟨"gpu", MetricError.connectionError "gpu query failed"⟩] :=
  ⟨(C6_partial_failure_isolated _ 11 _ ⟨8192, 16384, 50⟩ ⟨40, 100, 40⟩
      [⟨"alice", 10, 20, 2048, 2, []⟩] rfl rfl rfl rfl).1,
    (C6_partial_failure_isolated _ 11 _ ⟨8192, 16384, 50⟩ ⟨40, 100, 40⟩
      [⟨"alice", 10, 20, 2048, 2, []⟩] rfl rfl rfl rfl).2.2.2.2⟩

/-- Modelled from the spec: the Refresh Cache's persistent state — the
last published Snapshot plus staleness/error status (spec sections 4.4
and 6). -/
structure CacheState where
  lastSnapshot : Option Snapshot
  isStale : Bool
  lastError : Option String
deriving DecidableEq, Repr

/-- Modelled from the spec: publishing one refresh outcome into the cache
(spec sections 4.4 and 7): a successful collection replaces the Snapshot
atomically and clears staleness; a session-level `ConnectionError` keeps
the previous Snapshot and only marks it stale, recording the error. -/
def applyRefreshResult (st : CacheState) (r : Except String Snapshot) : CacheState :=
  match r with
  | Except.ok s => { lastSnapshot := some s, isStale := false, lastError := none }
  | Except.error e => { st with isStale := true, lastError := some e }

/-- Modelled from the spec: the consumer-facing response of
`getSnapshot()` (spec section 6): `{snapshot, isStale, lastError}` — all
failure is data, never an exception. -/
structure SnapshotResponse where
  snapshot : Option Snapshot
  isStale : Bool
  lastError : Option String
deriving DecidableEq, Repr

/-- Modelled from the spec: `getCurrent` serving the cached Snapshot with
its status fields (spec sections 4.4 and 6). -/
def getCurrent (st : CacheState) : SnapshotResponse where
  snapshot := st.lastSnapshot
  isStale := st.isStale
  lastError := st.lastError

/-- C4: if a refresh fails with a `ConnectionError` while a previously
successful Snapshot exists, `getCurrent` returns that same previous
Snapshot with `isStale = true` — not an empty or default one — and the
failure is exposed through the response's status field rather than an
exception (`getCurrent` is a total function into `SnapshotResponse`). -/
theorem C4_stale_snapshot_served (st : CacheState) (snap : Snapshot) (e : String)
    (h : st.lastSnapshot = some snap) :
    getCurrent (applyRefreshResult st (Except.error e)) =
      ⟨some snap, true, some e⟩ := by
  simp [getCurrent, applyRefreshResult, h]

/-- An empty Snapshot, used as concrete data for the cache claims. -/
def emptySnapshot : Snapshot where
  gpus := []
  user_resources := []
  system_resources := ⟨none, none⟩
  timestamp := 0
  failures := []

/-- C4 (witness): the theorem applied to a cache holding the empty
Snapshot when a refresh fails with a connection error. -/
theorem C4_stale_snapshot_served_witness :
    getCurrent (applyRefreshResult ⟨some emptySnapshot, false, none⟩
        (Except.error "ConnectionError: auth rejected")) =
      ⟨some emptySnapshot, true, some "ConnectionError: auth rejected"⟩ :=
  C4_stale_snapshot_served ⟨some emptySnapshot, false, none⟩ emptySnapshot
    "ConnectionError: auth rejected" rfl

/-! ## Single-flight refresh, modelled from the spec -/

/-- Modelled from the spec: the Refresh Cache's flight state (spec
section 4.4's `Idle -> Refreshing -> Idle` machine): whether a collection
is in flight and how many callers are blocked awaiting its result. -/
structure FlightState where
  refreshing : Bool
  waiters : ℕ
deriving DecidableEq, Repr

/-- Modelled from the spec: one stale-cache `getCurrent` request (spec
sections 4.4 and 5): while `Refreshing`, the caller joins the waiters of
the in-flight collection and starts nothing; otherwise it transitions the
cache to `Refreshing`, starting one new collection (the returned flag). -/
def requestCurrent (st : FlightState) : FlightState × Bool :=
  if st.refreshing then ({ st with waiters := st.waiters + 1 }, false)
  else ({ st with refreshing := true }, true)

/-- Modelled from the spec: a batch of `n` concurrent stale-cache requests
processed one by one, counting how many new `Aggregator.collect`
invocations they start. -/
def requestBatch : ℕ → FlightState → FlightState × ℕ
  | 0, st => (st, 0)
  | n + 1, st =>
      let first := requestCurrent st
      let rest := requestBatch n first.1
      (rest.1, (if first.2 then 1 else 0) + rest.2)

/-- Modelled from the spec: completion of the in-flight collection (spec
section 5): the resulting Snapshot is published atomically and every
blocked caller receives that same Snapshot. -/
def completeRefresh (snap : Snapshot) (st : FlightState) : FlightState × List Snapshot :=
  (⟨false, 0⟩, List.replicate st.waiters snap)

/-- While the cache is `Refreshing`, a batch of requests starts no new
collection and only accumulates waiters. -/
theorem requestBatch_while_refreshing (n : ℕ) :
    ∀ st : FlightState, st.refreshing = true →
      requestBatch n st = (⟨true, st.waiters + n⟩, 0) := by
  induction n with
  | zero =>
      intro st h
      cases st with
      | mk r w => cases h; rfl
  | succ n ih =>
      intro st h
      cases st with
      | mk r w =>
        cases h
        simp only [requestBatch, requestCurrent, if_pos]
        rw [ih ⟨true, w + 1⟩ rfl]
        simp [Nat.add_comm, Nat.add_assoc, Nat.add_left_comm]

/-- C5: for every `N ≥ 1`, `N` concurrent `getCurrent` calls arriving
while the cache is `Refreshing` cause exactly one `Aggregator.collect`
invocation in total — the one already in flight, the batch starting zero
new ones — and on completion every one of the `N` callers (together with
any earlier waiters) receives the same resulting Snapshot. -/
theorem C5_single_flight (n : ℕ) (st : FlightState) (snap : Snapshot)
    (hn : 1 ≤ n) (h : st.refreshing = true) :
    (requestBatch n st).2 = 0 ∧
      1 + (requestBatch n st).2 = 1 ∧
      (completeRefresh snap (requestBatch n st).1).2 =
        List.replicate (st.waiters + n) snap ∧
      ∀ s ∈ (completeRefresh snap (requestBatch n st).1).2, s = snap := by
  have hb := requestBatch_while_refreshing n st h
  refine ⟨by rw [hb], by simp [hb], by rw [hb]; rfl, ?_⟩
  intro s hs
  rw [hb] at hs
  exact List.eq_of_mem_replicate hs

/-- C5 (witness): the theorem applied to three concurrent calls arriving
during a refresh with no earlier waiters: zero new collections are
started and all three callers receive the published Snapshot. -/
theorem C5_single_flight_witness :
    (requestBatch 3 ⟨true, 0⟩).2 = 0 ∧
      (completeRefresh emptySnapshot (requestBatch 3 ⟨true, 0⟩).1).2 =
        List.replicate 3 emptySnapshot :=
  ⟨(C5_single_flight 3 ⟨true, 0⟩ emptySnapshot (by norm_num) rfl).1,
    (C5_single_flight 3 ⟨true, 0⟩ emptySnapshot (by norm_num) rfl).2.2.1⟩
